import Mathlib

/-!
Shallow embedding of the GBA-centrality core: the adjacency power builder
(`get_adjacency_matrices`) and the propagation scorer (`calculate_scores` in
scripts/GBA_centrality.py, `calculate_contributions` in
dev/contributions_at_distances.py).

Modelling conventions:
- Rationals stand for the double-precision accumulators (the development
  states exact-arithmetic laws; identical operation sequences give identical
  doubles as well).
- The causal-gene indicator vector has dtype uint8 in the source, and scipy's
  bool-matrix-by-uint8-vector product is computed in uint8, so that dot
  product is taken modulo 256 (`dot8`).
- `A.dot(ones_vec)` is bool-by-float64 and hence an exact row count.
- numpy's element-wise division emits NaN or an infinity (never an exception)
  on a zero denominator; that undefined value is modelled as `none`.
- Gene identifiers are an arbitrary type `V` with decidable equality (they
  are strings in production).
-/

/-- An interactome as consumed by the core: gene identifiers in the fixed
node-iteration order, and positional adjacency (`adj i j = true` iff the genes
at positions `i` and `j` interact). -/
structure Interactome (V : Type) where
  nodes : List V
  adj : ℕ → ℕ → Bool

/-- A sparse boolean matrix (scipy `csr_array` with `dtype=bool`), by position. -/
abbrev BMat : Type := ℕ → ℕ → Bool

/-- The unused element stored at index 0 of the matrix list (the literal `0`
placed in the Python list; it is never consumed). -/
def phMat : BMat := fun _ _ => false

/-- `res[nonzero, nonzero] = 0`: zero only the nonzero diagonal entries. -/
def zeroDiagSparse (M : BMat) : BMat := fun i j =>
  if i = j ∧ M i i = true then false else M i j

/-- `res.setdiag(0)`: the full diagonal clear that the sparse in-place update
is documented to be identical to. -/
def zeroDiagFull (M : BMat) : BMat := fun i j =>
  if i = j then false else M i j

/-- `res @ A` on boolean csr arrays: matrix product over the boolean semiring
(an entry is nonzero iff some `k` has both factors nonzero). -/
def boolMatMul (n : ℕ) (M A : BMat) : BMat := fun i j =>
  (List.range n).any fun k => M i k && A k j

/-- The `for power in range(2, d_max + 1)` loop of `get_adjacency_matrices`:
each step multiplies by `A` and re-zeroes the diagonal in place. `A` is the
already diagonal-zeroed base matrix: in the source `res = A` aliases the same
csr object, so the first in-place diagonal zeroing also zeroes `A` before any
multiplication happens. -/
def powersLoop (n : ℕ) (A : BMat) : BMat → ℕ → List BMat
  | _, 0 => []
  | res, k + 1 =>
    let res2 := zeroDiagSparse (boolMatMul n res A)
    res2 :: powersLoop n A res2 k

/-- `get_adjacency_matrices(interactome, d_max)`: the placeholder, then the
diagonal-zeroed boolean adjacency matrix, then the higher powers. `d_max` is a
Python `int`, so it is an integer here; `range(2, d_max + 1)` runs
`max 0 (d_max - 1)` times, hence `(dmax - 1).toNat`. The function performs no
validation of `d_max` or of the node count. -/
def getAdjacencyMatrices {V : Type} (interactome : Interactome V) (dmax : ℤ) :
    List BMat :=
  let res := zeroDiagSparse interactome.adj
  phMat :: res :: powersLoop interactome.nodes.length res res (dmax - 1).toNat

/-- The causal-gene indicator vector: 1 at position `i` iff the gene at
position `i` of the node order is a causal gene. A causal-gene identifier
that is not a node of the graph never matches any position. -/
def causalVec {V : Type} [DecidableEq V] (interactome : Interactome V)
    (causalGenes : List V) : ℕ → ℕ := fun i =>
  match interactome.nodes[i]? with
  | some nd => if nd ∈ causalGenes then 1 else 0
  | none => 0

/-- `A.dot(causal_genes_vec)` at one row: the boolean row dotted with the
uint8 indicator vector. scipy computes this product in uint8 (the upcast of
bool and uint8), so the row sum wraps around modulo 256. -/
def dot8 (n : ℕ) (row : ℕ → Bool) (v : ℕ → ℕ) : ℕ :=
  ((List.range n).foldl (fun s j => s + (if row j then v j else 0)) 0) % 256

/-- `A.dot(ones_vec)` at one row: the boolean row dotted with the all-ones
float64 vector, i.e. the exact count of nonzero row entries. -/
def dotOnes (n : ℕ) (row : ℕ → Bool) : ℕ :=
  (List.range n).foldl (fun s j => s + (if row j then 1 else 0)) 0

/-- `scores_vec / norm_factors_vec` at one position: numpy float division,
which yields NaN (0/0) or an infinity (x/0) on a zero denominator — an
undefined value surfaced per node, modelled as `none`; no exception is
raised. -/
def divUndef (s nrm : ℚ) : Option ℚ :=
  if nrm = 0 then none else some (s / nrm)

/-- One iteration of the scoring loop body at distance `d`:
`scores_vec += alpha ** d * A.dot(causal_genes_vec)` and
`norm_factors_vec += (alpha / alpha_norm) ** d * A.dot(ones_vec)`. -/
def scoresStep (n : ℕ) (adjacencyMatrices : List BMat) (c : ℕ → ℕ)
    (alpha alphaNorm : ℚ) (acc : (ℕ → ℚ) × (ℕ → ℚ)) (d : ℕ) :
    (ℕ → ℚ) × (ℕ → ℚ) :=
  let A := adjacencyMatrices.getD d phMat
  (fun i => acc.1 i + alpha ^ d * (dot8 n (A i) c : ℚ),
   fun i => acc.2 i + (alpha / alphaNorm) ^ d * (dotOnes n (A i) : ℚ))

/-- `for d in range(1, len(adjacency_matrices))`: the accumulation loop of
`calculate_scores`, starting from the two zero vectors. -/
def scoresLoop (n : ℕ) (adjacencyMatrices : List BMat) (c : ℕ → ℕ)
    (alpha alphaNorm : ℚ) : (ℕ → ℚ) × (ℕ → ℚ) :=
  (List.range' 1 (adjacencyMatrices.length - 1)).foldl
    (scoresStep n adjacencyMatrices c alpha alphaNorm)
    (fun _ => 0, fun _ => 0)

/-- All the arrays built by `calculate_scores`, plus its returned dict
(modelled as an association list in node order, as produced by
`dict(zip(interactome.nodes(), scores_vec_normalized))`). -/
structure ScoresResult (V : Type) where
  causalGenesVec : ℕ → ℕ
  scoresVec : ℕ → ℚ
  normFactorsVec : ℕ → ℚ
  scoresVecNormalized : ℕ → Option ℚ
  scores : List (V × Option ℚ)

/-- `calculate_scores(interactome, adjacency_matrices, causal_genes, alpha,
alpha_norm)`. `alpha_norm` is nonzero on the spec's admissible domain (0,1];
the rational scalar division is total, which only matters outside it. -/
def calculateScores {V : Type} [DecidableEq V] (interactome : Interactome V)
    (adjacencyMatrices : List BMat) (causalGenes : List V)
    (alpha alphaNorm : ℚ) : ScoresResult V :=
  let n := interactome.nodes.length
  let c := causalVec interactome causalGenes
  let st := scoresLoop n adjacencyMatrices c alpha alphaNorm
  { causalGenesVec := c
    scoresVec := st.1
    normFactorsVec := st.2
    scoresVecNormalized := fun i => divUndef (st.1 i) (st.2 i)
    scores := interactome.nodes.zip
      ((List.range n).map fun i => divUndef (st.1 i) (st.2 i)) }

/-- `calculate_contributions(interactome, adjacency_matrices, causal_genes,
alpha, d_max, alpha_norm, patho)` from dev/contributions_at_distances.py:
the same loop, but each distance's `scores_vec_tmp` and
`norm_factors_vec_tmp` are persisted individually (via `numpy.savez`) and the
final division is never performed. The persisted per-distance pairs are the
returned list; `d_max` and `patho` are only spliced into the output file
names. -/
def calculateContributions {V : Type} [DecidableEq V]
    (interactome : Interactome V) (adjacencyMatrices : List BMat)
    (causalGenes : List V) (alpha : ℚ) (_dmax : ℤ) (alphaNorm : ℚ)
    (_patho : String) : List ((ℕ → ℚ) × (ℕ → ℚ)) :=
  let n := interactome.nodes.length
  let c := causalVec interactome causalGenes
  (List.range' 1 (adjacencyMatrices.length - 1)).map fun d =>
    let A := adjacencyMatrices.getD d phMat
    (fun i => alpha ^ d * (dot8 n (A i) c : ℚ),
     fun i => (alpha / alphaNorm) ^ d * (dotOnes n (A i) : ℚ))

/-- A matrix of literal natural-number walk counts, by position. -/
abbrev NMat : Type := ℕ → ℕ → ℕ

/-- The zero count matrix (default / placeholder on the count side). -/
def zeroMatN : NMat := fun _ _ => 0

/-- Full diagonal clear on a count matrix. -/
def zeroDiagN (M : NMat) : NMat := fun i j =>
  if i = j then 0 else M i j

/-- Matrix product with literal walk counts (ordinary natural-number
arithmetic instead of the boolean semiring). -/
def natMatMul (n : ℕ) (M A : NMat) : NMat := fun i j =>
  ((List.range n).map fun k => M i k * A k j).sum

/-- The power loop with literal walk counts, same shape as `powersLoop`. -/
def natPowersLoop (n : ℕ) (A : NMat) : NMat → ℕ → List NMat
  | _, 0 => []
  | res, k + 1 =>
    let res2 := zeroDiagN (natMatMul n res A)
    res2 :: natPowersLoop n A res2 k

/-- Modelled from the spec: the literal walk-count reading of the power
sequence ("number of d-length walks ... with the diagonal zeroed"), built
with ordinary arithmetic, to compare against the boolean-collapsed matrices
the code actually builds. -/
def getAdjacencyMatricesCounts {V : Type} (interactome : Interactome V)
    (dmax : ℤ) : List NMat :=
  let nA : NMat := fun i j => if interactome.adj i j then 1 else 0
  let res := zeroDiagN nA
  zeroMatN :: res :: natPowersLoop interactome.nodes.length res res (dmax - 1).toNat

/-- Modelled from the spec: the exact dot product `A^d · c` of the claimed
scoring formula, with no uint8 truncation. -/
def dotExact (n : ℕ) (row : ℕ → Bool) (v : ℕ → ℕ) : ℕ :=
  (List.range n).foldl (fun s j => s + (if row j then v j else 0)) 0

/-- Modelled from the spec: the claimed pre-normalization score vector
`score_i = sum_d alpha^d * (A^d · c)_i` with the exact dot product. -/
def scoresVecSpec {V : Type} [DecidableEq V] (interactome : Interactome V)
    (adjacencyMatrices : List BMat) (causalGenes : List V) (alpha : ℚ) :
    ℕ → ℚ := fun i =>
  ((List.range' 1 (adjacencyMatrices.length - 1)).map fun d =>
    alpha ^ d *
      (dotExact interactome.nodes.length ((adjacencyMatrices.getD d phMat) i)
        (causalVec interactome causalGenes) : ℚ)).sum

/-- Concrete 3-node path graph 0 - 1 - 2 (nodes are their positions). -/
def gPath3 : Interactome ℕ :=
  { nodes := [0, 1, 2]
    adj := fun i j =>
      (i == 0 && j == 1) || (i == 1 && j == 0) ||
      (i == 1 && j == 2) || (i == 2 && j == 1) }

/-- Concrete graph on nodes 0, 1, 2 with the single edge 0 - 1;
node 2 is isolated. -/
def gIso3 : Interactome ℕ :=
  { nodes := [0, 1, 2]
    adj := fun i j => (i == 0 && j == 1) || (i == 1 && j == 0) }

/-- Concrete 2-node graph with the single edge 0 - 1. -/
def gPath2 : Interactome ℕ :=
  { nodes := [0, 1]
    adj := fun i j => (i == 0 && j == 1) || (i == 1 && j == 0) }

/-- Concrete star graph: center 0 joined to the 256 leaves 1..256. -/
def gStar257 : Interactome ℕ :=
  { nodes := List.range 257
    adj := fun i j => (i == 0) ^^ (j == 0) }

/-- The sparse in-place update leaves a `false` diagonal. -/
theorem zeroDiagSparse_diag (M : BMat) (i : ℕ) : zeroDiagSparse M i i = false := by
  cases h : M i i <;> simp [zeroDiagSparse, h]

/-- The sparse diagonal update agrees with the full clear entrywise. -/
theorem zeroDiagSparse_eq_full (M : BMat) (i j : ℕ) :
    zeroDiagSparse M i j = zeroDiagFull M i j := by
  by_cases hij : i = j
  · subst hij
    cases h : M i i <;> simp [zeroDiagSparse, zeroDiagFull, h]
  · simp [zeroDiagSparse, zeroDiagFull, hij]

/-- Every matrix produced by the power loop has a `false` diagonal. -/
theorem powersLoop_diag (n : ℕ) (A : BMat) :
    ∀ (k : ℕ) (res M : BMat), M ∈ powersLoop n A res k → ∀ i, M i i = false := by
  intro k
  induction k with
  | zero => intro res M h; simp [powersLoop] at h
  | succ k ih =>
    intro res M h i
    rw [powersLoop] at h
    rcases List.mem_cons.1 h with h' | h'
    · subst h'; exact zeroDiagSparse_diag _ i
    · exact ih _ M h' i

/-- Reading any index of a list of matrices with all-`false` diagonals (with
the all-`false` default) again gives a matrix with a `false` diagonal. -/
theorem getD_diag_false (L : List BMat)
    (hL : ∀ M ∈ L, ∀ i, M i i = false) (k i : ℕ) :
    L.getD k phMat i i = false := by
  rcases h : L[k]? with _ | M
  · simp [List.getD_eq_getElem?_getD, h, phMat]
  · have hM : M ∈ L := List.getElem?_mem h
    simp [List.getD_eq_getElem?_getD, h]
    exact hL M hM i

/-- Closed form of the score accumulator built by the scoring loop. -/
theorem scoresLoop_fold_fst (n : ℕ) (mats : List BMat) (c : ℕ → ℕ)
    (alpha alphaNorm : ℚ) (l : List ℕ) :
    ∀ (acc : (ℕ → ℚ) × (ℕ → ℚ)) (i : ℕ),
      (l.foldl (scoresStep n mats c alpha alphaNorm) acc).1 i
        = acc.1 i
          + (l.map fun d =>
              alpha ^ d * (dot8 n ((mats.getD d phMat) i) c : ℚ)).sum := by
  induction l with
  | nil => intro acc i; simp
  | cons d l ih =>
    intro acc i
    simp only [List.foldl_cons, List.map_cons, List.sum_cons]
    rw [ih]
    simp only [scoresStep]
    ring

/-- Closed form of the normalization accumulator built by the scoring loop. -/
theorem scoresLoop_fold_snd (n : ℕ) (mats : List BMat) (c : ℕ → ℕ)
    (alpha alphaNorm : ℚ) (l : List ℕ) :
    ∀ (acc : (ℕ → ℚ) × (ℕ → ℚ)) (i : ℕ),
      (l.foldl (scoresStep n mats c alpha alphaNorm) acc).2 i
        = acc.2 i
          + (l.map fun d =>
              (alpha / alphaNorm) ^ d * (dotOnes n ((mats.getD d phMat) i) : ℚ)).sum := by
  induction l with
  | nil => intro acc i; simp
  | cons d l ih =>
    intro acc i
    simp only [List.foldl_cons, List.map_cons, List.sum_cons]
    rw [ih]
    simp only [scoresStep]
    ring

/-- Closed form of the `scores_vec` array computed by `calculate_scores`. -/
theorem calculateScores_scoresVec {V : Type} [DecidableEq V]
    (g : Interactome V) (mats : List BMat) (causal : List V)
    (alpha alphaNorm : ℚ) (i : ℕ) :
    (calculateScores g mats causal alpha alphaNorm).scoresVec i
      = ((List.range' 1 (mats.length - 1)).map fun d =>
          alpha ^ d
            * (dot8 g.nodes.length ((mats.getD d phMat) i)
                (causalVec g causal) : ℚ)).sum := by
  show (scoresLoop g.nodes.length mats (causalVec g causal) alpha alphaNorm).1 i = _
  rw [scoresLoop, scoresLoop_fold_fst]
  simp

/-- Closed form of the `norm_factors_vec` array computed by
`calculate_scores`. -/
theorem calculateScores_normFactorsVec {V : Type} [DecidableEq V]
    (g : Interactome V) (mats : List BMat) (causal : List V)
    (alpha alphaNorm : ℚ) (i : ℕ) :
    (calculateScores g mats causal alpha alphaNorm).normFactorsVec i
      = ((List.range' 1 (mats.length - 1)).map fun d =>
          (alpha / alphaNorm) ^ d
            * (dotOnes g.nodes.length ((mats.getD d phMat) i) : ℚ)).sum := by
  show (scoresLoop g.nodes.length mats (causalVec g causal) alpha alphaNorm).2 i = _
  rw [scoresLoop, scoresLoop_fold_snd]
  simp

/-- C2: for every graph and every d_max, every matrix of the sequence
returned by the adjacency power builder has an exactly zero diagonal at every
distance d = 1..d_max (the diagonal is cleared again after each matrix
multiplication), and the sparse optimization of zeroing only the nonzero
diagonal entries is entrywise identical to a full diagonal clear. -/
theorem adjacencyMatrices_zero_diagonal :
    (∀ (V : Type) (g : Interactome V) (dmax : ℤ) (d : ℕ), 1 ≤ d →
        d < (getAdjacencyMatrices g dmax).length →
        ∀ i, (getAdjacencyMatrices g dmax).getD d phMat i i = false)
    ∧ (∀ (M : BMat) (i j : ℕ), zeroDiagSparse M i j = zeroDiagFull M i j) := by
  constructor
  · intro V g dmax d hd _ i
    match d, hd with
    | 1, _ =>
      show zeroDiagSparse g.adj i i = false
      exact zeroDiagSparse_diag _ i
    | (k + 2), _ =>
      show (powersLoop g.nodes.length (zeroDiagSparse g.adj)
              (zeroDiagSparse g.adj) (dmax - 1).toNat).getD k phMat i i = false
      exact getD_diag_false _
        (fun M hM => powersLoop_diag _ _ _ _ M hM) k i
  · exact zeroDiagSparse_eq_full

/-- Witness for C2 at a concrete graph: the distance-2 matrix of the 3-node
path has a zero diagonal, and the sparse clear agrees with the full clear. -/
theorem adjacencyMatrices_zero_diagonal_wit :
    (getAdjacencyMatrices gPath3 2).getD 2 phMat 0 0 = false
    ∧ zeroDiagSparse gPath3.adj 0 1 = zeroDiagFull gPath3.adj 0 1 :=
  ⟨adjacencyMatrices_zero_diagonal.1 ℕ gPath3 2 2 (by decide) (by decide) 0,
   adjacencyMatrices_zero_diagonal.2 gPath3.adj 0 1⟩

/-- C6 counterexample: at d_max = 0 (< 1) on a nonempty graph the builder
does not fail with any error; it simply returns the placeholder plus the
diagonal-zeroed base adjacency matrix. -/
theorem builder_no_failure_cex :
    getAdjacencyMatrices gPath2 0 = [phMat, zeroDiagSparse gPath2.adj]
    ∧ (getAdjacencyMatrices gPath2 0).length = 2 := by
  constructor
  · rfl
  · rfl

/-- C6 (amended): the builder performs no input validation; for every graph
and every d_max < 1 it returns, without error, the two-element list holding
the unused placeholder and the diagonal-zeroed base adjacency matrix (for a
zero-node graph the failure that does occur is a networkx library error
inside the sparse conversion, not an InvalidArgument check of the builder). -/
theorem builder_no_validation (V : Type) (g : Interactome V) (dmax : ℤ)
    (h : dmax < 1) :
    getAdjacencyMatrices g dmax = [phMat, zeroDiagSparse g.adj] := by
  have h0 : (dmax - 1).toNat = 0 := by omega
  rw [getAdjacencyMatrices, h0]
  rfl

/-- Witness for C6 (amended) at a concrete graph and d_max = 0. -/
theorem builder_no_validation_wit :
    getAdjacencyMatrices gIso3 0 = [phMat, zeroDiagSparse gIso3.adj] :=
  builder_no_validation ℕ gIso3 0 (by decide)

/-- C1 (amended): for every graph, causal-gene set, decay factors and matrix
sequence, `calculate_scores` computes the 0/1 indicator vector aligned to the
node order, accumulates over d = 1..d_max the terms
`alpha^d * (A^d · c)` — where the dot product `A^d · c` is computed in the
uint8 dtype of the indicator vector, i.e. modulo 256 — and
`(alpha/alpha_norm)^d * (A^d · ones)` (exact, in float64), then forms the
element-wise quotient `score / norm` (undefined where `norm` is zero) and
zips it back to the gene identifiers in the same node order. -/
theorem calculateScores_formula (V : Type) [DecidableEq V]
    (g : Interactome V) (mats : List BMat) (causal : List V)
    (alpha alphaNorm : ℚ) :
    (∀ (i : ℕ) (nd : V), g.nodes[i]? = some nd →
        (calculateScores g mats causal alpha alphaNorm).causalGenesVec i
          = if nd ∈ causal then 1 else 0)
    ∧ (∀ i, (calculateScores g mats causal alpha alphaNorm).scoresVec i
        = ((List.range' 1 (mats.length - 1)).map fun d =>
            alpha ^ d
              * (dot8 g.nodes.length ((mats.getD d phMat) i)
                  (causalVec g causal) : ℚ)).sum)
    ∧ (∀ i, (calculateScores g mats causal alpha alphaNorm).normFactorsVec i
        = ((List.range' 1 (mats.length - 1)).map fun d =>
            (alpha / alphaNorm) ^ d
              * (dotOnes g.nodes.length ((mats.getD d phMat) i) : ℚ)).sum)
    ∧ (∀ i, (calculateScores g mats causal alpha alphaNorm).scoresVecNormalized i
        = divUndef ((calculateScores g mats causal alpha alphaNorm).scoresVec i)
            ((calculateScores g mats causal alpha alphaNorm).normFactorsVec i))
    ∧ (calculateScores g mats causal alpha alphaNorm).scores
        = g.nodes.zip ((List.range g.nodes.length).map
            (calculateScores g mats causal alpha alphaNorm).scoresVecNormalized) := by
  refine ⟨?_, ?_, ?_, fun i => rfl, rfl⟩
  · intro i nd h
    show causalVec g causal i = _
    rw [causalVec, h]
  · exact calculateScores_scoresVec g mats causal alpha alphaNorm
  · exact calculateScores_normFactorsVec g mats causal alpha alphaNorm

/-- Witness for C1 (amended) at a concrete graph, instantiating the
indicator-vector conjunct (the one with a hypothesis) at position 0. -/
theorem calculateScores_formula_wit :
    (calculateScores gIso3 (getAdjacencyMatrices gIso3 1) [0] (1/2) 1).causalGenesVec 0
      = if (0 : ℕ) ∈ ([0] : List ℕ) then 1 else 0 :=
  (calculateScores_formula ℕ gIso3 (getAdjacencyMatrices gIso3 1) [0] (1/2) 1).1
    0 0 (by decide)

set_option maxRecDepth 4000 in
/-- C1 counterexample: on the star graph whose center has 256 causal
neighbors, the actual score accumulator at the center is 0 (the uint8 dot
product 256 wraps to 0), while the spec's exact formula gives 256 — so the
scoring operation does not compute exactly `alpha^d * (A^d · c)` with the
mathematical dot product. -/
theorem calculateScores_formula_cex :
    (calculateScores gStar257 (getAdjacencyMatrices gStar257 1)
        (List.range' 1 256) 1 1).scoresVec 0 = 0
    ∧ scoresVecSpec gStar257 (getAdjacencyMatrices gStar257 1)
        (List.range' 1 256) 1 0 = 256 := by
  have hr : List.range' 1 ((getAdjacencyMatrices gStar257 1).length - 1) = [1] := rfl
  have hd : dot8 gStar257.nodes.length
      (((getAdjacencyMatrices gStar257 1).getD 1 phMat) 0)
      (causalVec gStar257 (List.range' 1 256)) = 0 := by decide
  have he : dotExact gStar257.nodes.length
      (((getAdjacencyMatrices gStar257 1).getD 1 phMat) 0)
      (causalVec gStar257 (List.range' 1 256)) = 256 := by decide
  constructor
  · rw [calculateScores_scoresVec, hr]
    simp only [List.map_cons, List.map_nil, List.sum_cons, List.sum_nil, hd]
    norm_num
  · rw [scoresVecSpec, hr]
    simp only [List.map_cons, List.map_nil, List.sum_cons, List.sum_nil, he]
    norm_num

/-- A sum of naturals over a mapped list is nonzero iff some term is. -/
theorem mapSum_ne_zero_iff (l : List ℕ) (f : ℕ → ℕ) :
    (l.map f).sum ≠ 0 ↔ ∃ x ∈ l, f x ≠ 0 := by
  induction l with
  | nil => simp
  | cons a l ih =>
    simp only [List.map_cons, List.sum_cons, List.mem_cons]
    constructor
    · intro h
      rcases Nat.eq_zero_or_pos (f a) with ha | ha
      · rcases ih.1 (by omega) with ⟨x, hx, hfx⟩
        exact ⟨x, Or.inr hx, hfx⟩
      · exact ⟨a, Or.inl rfl, by omega⟩
    · rintro ⟨x, hx | hx, hfx⟩
      · subst hx; omega
      · have := ih.2 ⟨x, hx, hfx⟩
        omega

/-- A boolean matrix is the nonzero-indicator of a count matrix. -/
def MatRel (B : BMat) (N : NMat) : Prop :=
  ∀ i j, B i j = true ↔ N i j ≠ 0

/-- The placeholder bool matrix indicates the zero count matrix. -/
theorem matRel_ph : MatRel phMat zeroMatN := by
  intro i j
  simp [phMat, zeroMatN]

/-- Diagonal clearing preserves the indicator relation. -/
theorem matRel_zeroDiag {B : BMat} {N : NMat} (h : MatRel B N) :
    MatRel (zeroDiagSparse B) (zeroDiagN N) := by
  intro i j
  by_cases hij : i = j
  · subst hij
    simp [zeroDiagSparse_diag, zeroDiagN]
  · simp only [zeroDiagSparse, zeroDiagN, hij, false_and, if_false, if_neg hij]
    exact h i j

/-- Boolean-semiring multiplication is the nonzero-indicator of literal
count multiplication. -/
theorem matRel_mul (n : ℕ) {B : BMat} {N : NMat} {A : BMat} {nA : NMat}
    (hBN : MatRel B N) (hA : MatRel A nA) :
    MatRel (boolMatMul n B A) (natMatMul n N nA) := by
  intro i j
  simp only [boolMatMul, natMatMul, List.any_eq_true, Bool.and_eq_true]
  rw [mapSum_ne_zero_iff]
  constructor
  · rintro ⟨k, hk, h1, h2⟩
    exact ⟨k, hk, Nat.mul_ne_zero ((hBN i k).1 h1) ((hA k j).1 h2)⟩
  · rintro ⟨k, hk, hne⟩
    exact ⟨k, hk, (hBN i k).2 fun h0 => hne (by rw [h0, Nat.zero_mul]),
      (hA k j).2 fun h0 => hne (by rw [h0, Nat.mul_zero])⟩

/-- Positionwise indicator relation between the boolean power loop and the
literal-count power loop (out-of-range reads return the related defaults). -/
theorem powersLoop_rel (n : ℕ) {A : BMat} {nA : NMat} (hA : MatRel A nA) :
    ∀ (k : ℕ) (res : BMat) (nres : NMat), MatRel res nres →
      ∀ idx, MatRel ((powersLoop n A res k).getD idx phMat)
        ((natPowersLoop n nA nres k).getD idx zeroMatN) := by
  intro k
  induction k with
  | zero =>
    intro res nres _ idx
    simp only [powersLoop, natPowersLoop, List.getD]
    simpa using matRel_ph
  | succ k ih =>
    intro res nres hres idx
    rw [powersLoop, natPowersLoop]
    match idx with
    | 0 => exact matRel_zeroDiag (matRel_mul n hres hA)
    | idx + 1 => exact ih _ _ (matRel_zeroDiag (matRel_mul n hres hA)) idx

/-- C9: every matrix of the sequence built by the adjacency power builder is
boolean-valued, and for every distance d = 1..d_max its (i,j) entry is the
walk-existence indicator of the literal walk-count power (built by the same
recursion over ordinary arithmetic): the entry is `true` exactly when the
count is nonzero, never the count itself. -/
theorem powers_boolean_indicator (V : Type) (g : Interactome V) (dmax : ℤ)
    (d : ℕ) (hd : 1 ≤ d) (hlen : d < (getAdjacencyMatrices g dmax).length)
    (i j : ℕ) :
    ((getAdjacencyMatrices g dmax).getD d phMat) i j = true
      ↔ ((getAdjacencyMatricesCounts g dmax).getD d zeroMatN) i j ≠ 0 := by
  have hbase : MatRel (zeroDiagSparse g.adj)
      (zeroDiagN fun i j => if g.adj i j then 1 else 0) := by
    refine matRel_zeroDiag ?_
    intro i j
    cases h : g.adj i j <;> simp [h]
  match d, hd with
  | 1, _ =>
    exact hbase i j
  | (k + 2), _ =>
    exact powersLoop_rel g.nodes.length hbase (dmax - 1).toNat _ _ hbase k i j

/-- Witness for C9: on the 3-node path at distance 2, the boolean entry
(0,2) is `true` iff the literal count entry is nonzero. -/
theorem powers_boolean_indicator_wit :
    ((getAdjacencyMatrices gPath3 2).getD 2 phMat) 0 2 = true
      ↔ ((getAdjacencyMatricesCounts gPath3 2).getD 2 zeroMatN) 0 2 ≠ 0 :=
  powers_boolean_indicator ℕ gPath3 2 2 (by decide) (by decide) 0 2

/-- C3: on identical inputs, the diagnostic mode's per-distance score
contributions summed over d = 1..d_max equal the scoring mode's
pre-normalization score vector, and its summed per-distance normalization
contributions equal the scoring mode's normalization vector, at every
position. -/
theorem contributions_sum_eq_scores (V : Type) [DecidableEq V]
    (g : Interactome V) (mats : List BMat) (causal : List V)
    (alpha alphaNorm : ℚ) (dmax : ℤ) (patho : String) (i : ℕ) :
    (((calculateContributions g mats causal alpha dmax alphaNorm patho).map
        fun p => p.1 i).sum
      = (calculateScores g mats causal alpha alphaNorm).scoresVec i)
    ∧ (((calculateContributions g mats causal alpha dmax alphaNorm patho).map
        fun p => p.2 i).sum
      = (calculateScores g mats causal alpha alphaNorm).normFactorsVec i) := by
  constructor
  · rw [calculateScores_scoresVec]
    simp only [calculateContributions, List.map_map]
    rfl
  · rw [calculateScores_normFactorsVec]
    simp only [calculateContributions, List.map_map]
    rfl

/-- C8: for a fixed graph, matrix sequence, causal genes and alpha, the
unnormalized score accumulator of `calculate_scores` is identical for any
two values of alpha_norm — alpha_norm only enters the normalization
denominator. -/
theorem scoresVec_independent_of_alphaNorm (V : Type) [DecidableEq V]
    (g : Interactome V) (mats : List BMat) (causal : List V)
    (alpha alphaNorm1 alphaNorm2 : ℚ) (i : ℕ) :
    (calculateScores g mats causal alpha alphaNorm1).scoresVec i
      = (calculateScores g mats causal alpha alphaNorm2).scoresVec i := by
  rw [calculateScores_scoresVec, calculateScores_scoresVec]

/-- C10: the mapping returned by `calculate_scores` has exactly the graph's
nodes as keys, in the graph's fixed node order; its value list is the
normalized-score vector read at positions 0..n-1, so nodes with an undefined
(`none`) normalized score are present as entries, never dropped. -/
theorem scores_keys_eq_nodes (V : Type) [DecidableEq V]
    (g : Interactome V) (mats : List BMat) (causal : List V)
    (alpha alphaNorm : ℚ) :
    ((calculateScores g mats causal alpha alphaNorm).scores.map Prod.fst
        = g.nodes)
    ∧ ((calculateScores g mats causal alpha alphaNorm).scores.map Prod.snd
        = (List.range g.nodes.length).map
            (calculateScores g mats causal alpha alphaNorm).scoresVecNormalized)
    ∧ ((calculateScores g mats causal alpha alphaNorm).scores.length
        = g.nodes.length) := by
  refine ⟨?_, ?_, ?_⟩
  · exact List.map_fst_zip _ _ (by simp)
  · exact List.map_snd_zip _ _ (by simp)
  · show (g.nodes.zip _).length = _
    rw [List.length_zip]
    simp

/-- C5: the element-wise division is an explicitly per-node condition: a
position whose accumulated normalization denominator is zero gets the
undefined value `none` (numpy NaN/inf; no exception is raised), and every
position with a nonzero denominator gets exactly its quotient
`score / norm`. -/
theorem normalization_zero_undefined (V : Type) [DecidableEq V]
    (g : Interactome V) (mats : List BMat) (causal : List V)
    (alpha alphaNorm : ℚ) (i : ℕ) :
    ((calculateScores g mats causal alpha alphaNorm).normFactorsVec i = 0 →
      (calculateScores g mats causal alpha alphaNorm).scoresVecNormalized i
        = none)
    ∧ ((calculateScores g mats causal alpha alphaNorm).normFactorsVec i ≠ 0 →
      (calculateScores g mats causal alpha alphaNorm).scoresVecNormalized i
        = some ((calculateScores g mats causal alpha alphaNorm).scoresVec i
            / (calculateScores g mats causal alpha alphaNorm).normFactorsVec i)) := by
  constructor
  · intro h
    show divUndef ((calculateScores g mats causal alpha alphaNorm).scoresVec i)
        ((calculateScores g mats causal alpha alphaNorm).normFactorsVec i) = none
    simp only [divUndef]
    rw [if_pos h]
  · intro h
    show divUndef ((calculateScores g mats causal alpha alphaNorm).scoresVec i)
        ((calculateScores g mats causal alpha alphaNorm).normFactorsVec i) = some _
    simp only [divUndef]
    rw [if_neg h]

/-- C7 (amended): a causal-gene identifier absent from the graph's node set
is silently ignored by `calculate_scores` — it changes neither the indicator
vector (no position matches it) nor the returned mapping, and no error is
surfaced. -/
theorem unknown_causal_silently_ignored (V : Type) [DecidableEq V]
    (g : Interactome V) (mats : List BMat) (causal : List V) (x : V)
    (alpha alphaNorm : ℚ) (hx : x ∉ g.nodes) :
    (∀ i, (calculateScores g mats (x :: causal) alpha alphaNorm).causalGenesVec i
        = (calculateScores g mats causal alpha alphaNorm).causalGenesVec i)
    ∧ (calculateScores g mats (x :: causal) alpha alphaNorm).scores
        = (calculateScores g mats causal alpha alphaNorm).scores := by
  have hc : causalVec g (x :: causal) = causalVec g causal := by
    funext i
    simp only [causalVec]
    cases h : g.nodes[i]? with
    | none => rfl
    | some nd =>
      have hnd : nd ∈ g.nodes := List.getElem?_mem h
      have hne : nd ≠ x := fun he => hx (he ▸ hnd)
      simp [hne]
  constructor
  · intro i
    show causalVec g (x :: causal) i = causalVec g causal i
    rw [hc]
  · simp only [calculateScores, hc]

/-- C4: the scoring operation applies the identical
accumulation-and-normalization formula to every position — the formula makes
no case split on the causal indicator — and concretely a causal gene (node 0
of `gIso3`, indicator 1) receives the formula value `some 0`, not the
special-cased value 1.0. -/
theorem uniform_formula_for_causal (V : Type) [DecidableEq V] :
    (∀ (g : Interactome V) (mats : List BMat) (causal : List V)
        (alpha alphaNorm : ℚ) (i : ℕ),
        (calculateScores g mats causal alpha alphaNorm).scoresVecNormalized i
          = divUndef
              (((List.range' 1 (mats.length - 1)).map fun d =>
                  alpha ^ d * (dot8 g.nodes.length ((mats.getD d phMat) i)
                    (causalVec g causal) : ℚ)).sum)
              (((List.range' 1 (mats.length - 1)).map fun d =>
                  (alpha / alphaNorm) ^ d
                    * (dotOnes g.nodes.length ((mats.getD d phMat) i) : ℚ)).sum))
    ∧ ((calculateScores gIso3 (getAdjacencyMatrices gIso3 1) [0] (1/2) 1).causalGenesVec 0 = 1
        ∧ (calculateScores gIso3 (getAdjacencyMatrices gIso3 1) [0] (1/2) 1).scoresVecNormalized 0
            = some 0
        ∧ (calculateScores gIso3 (getAdjacencyMatrices gIso3 1) [0] (1/2) 1).scoresVecNormalized 0
            ≠ some 1) := by
  have hr : List.range' 1 ((getAdjacencyMatrices gIso3 1).length - 1) = [1] := rfl
  have hd8 : dot8 gIso3.nodes.length
      (((getAdjacencyMatrices gIso3 1).getD 1 phMat) 0)
      (causalVec gIso3 [0]) = 0 := by decide
  have hdo : dotOnes gIso3.nodes.length
      (((getAdjacencyMatrices gIso3 1).getD 1 phMat) 0) = 1 := by decide
  have hsv : (calculateScores gIso3 (getAdjacencyMatrices gIso3 1) [0] (1/2) 1).scoresVec 0
      = 0 := by
    rw [calculateScores_scoresVec, hr]
    simp only [List.map_cons, List.map_nil, List.sum_cons, List.sum_nil, hd8]
    norm_num
  have hnv : (calculateScores gIso3 (getAdjacencyMatrices gIso3 1) [0] (1/2) 1).normFactorsVec 0
      = 1/2 := by
    rw [calculateScores_normFactorsVec, hr]
    simp only [List.map_cons, List.map_nil, List.sum_cons, List.sum_nil, hdo]
    norm_num
  have hsvn : (calculateScores gIso3 (getAdjacencyMatrices gIso3 1) [0] (1/2) 1).scoresVecNormalized 0
      = divUndef
          ((calculateScores gIso3 (getAdjacencyMatrices gIso3 1) [0] (1/2) 1).scoresVec 0)
          ((calculateScores gIso3 (getAdjacencyMatrices gIso3 1) [0] (1/2) 1).normFactorsVec 0) :=
    rfl
  refine ⟨?_, by decide, ?_, ?_⟩
  · intro g mats causal alpha alphaNorm i
    rw [← calculateScores_scoresVec g mats causal alpha alphaNorm i,
        ← calculateScores_normFactorsVec g mats causal alpha alphaNorm i]
    rfl
  · rw [hsvn, hsv, hnv]
    norm_num [divUndef]
  · rw [hsvn, hsv, hnv]
    norm_num [divUndef]

/-- Witness for C5 at a concrete graph: node 2 of `gIso3` is isolated, so its
accumulated denominator is zero and its normalized score is the undefined
value; node 1 has a nonzero denominator and receives its exact quotient. -/
theorem normalization_zero_undefined_wit :
    ((calculateScores gIso3 (getAdjacencyMatrices gIso3 1) [0] (1/2) 1).scoresVecNormalized 2
        = none)
    ∧ ((calculateScores gIso3 (getAdjacencyMatrices gIso3 1) [0] (1/2) 1).scoresVecNormalized 1
        = some ((calculateScores gIso3 (getAdjacencyMatrices gIso3 1) [0] (1/2) 1).scoresVec 1
            / (calculateScores gIso3 (getAdjacencyMatrices gIso3 1) [0] (1/2) 1).normFactorsVec 1)) := by
  have hr : List.range' 1 ((getAdjacencyMatrices gIso3 1).length - 1) = [1] := rfl
  have hdo2 : dotOnes gIso3.nodes.length
      (((getAdjacencyMatrices gIso3 1).getD 1 phMat) 2) = 0 := by decide
  have hdo1 : dotOnes gIso3.nodes.length
      (((getAdjacencyMatrices gIso3 1).getD 1 phMat) 1) = 1 := by decide
  have hnv2 : (calculateScores gIso3 (getAdjacencyMatrices gIso3 1) [0] (1/2) 1).normFactorsVec 2
      = 0 := by
    rw [calculateScores_normFactorsVec, hr]
    simp only [List.map_cons, List.map_nil, List.sum_cons, List.sum_nil, hdo2]
    norm_num
  have hnv1 : (calculateScores gIso3 (getAdjacencyMatrices gIso3 1) [0] (1/2) 1).normFactorsVec 1
      = 1/2 := by
    rw [calculateScores_normFactorsVec, hr]
    simp only [List.map_cons, List.map_nil, List.sum_cons, List.sum_nil, hdo1]
    norm_num
  exact ⟨(normalization_zero_undefined ℕ gIso3 (getAdjacencyMatrices gIso3 1)
      [0] (1/2) 1 2).1 hnv2,
    (normalization_zero_undefined ℕ gIso3 (getAdjacencyMatrices gIso3 1)
      [0] (1/2) 1 1).2 (by rw [hnv1]; norm_num)⟩

/-- C7 counterexample: with the causal set `[99]` whose only identifier is
not a node of `gPath2`, `calculate_scores` surfaces no error: it runs to
completion with an all-zero indicator vector (the identifier is silently
ignored while building it) and still returns one entry per graph node. -/
theorem unknown_causal_silently_ignored_cex :
    (calculateScores gPath2 (getAdjacencyMatrices gPath2 1) [99] (1/2) 1).causalGenesVec 0 = 0
    ∧ (calculateScores gPath2 (getAdjacencyMatrices gPath2 1) [99] (1/2) 1).causalGenesVec 1 = 0
    ∧ (calculateScores gPath2 (getAdjacencyMatrices gPath2 1) [99] (1/2) 1).scores.map Prod.fst
        = gPath2.nodes := by
  refine ⟨by decide, by decide, by decide⟩

/-- Witness for C7 (amended) at a concrete graph: prepending the foreign
identifier 99 to the causal set leaves the returned mapping unchanged. -/
theorem unknown_causal_silently_ignored_wit :
    (calculateScores gPath2 (getAdjacencyMatrices gPath2 1) (99 :: [0]) (1/2) 1).scores
      = (calculateScores gPath2 (getAdjacencyMatrices gPath2 1) [0] (1/2) 1).scores :=
  (unknown_causal_silently_ignored ℕ gPath2 (getAdjacencyMatrices gPath2 1)
    [0] 99 (1/2) 1 (by decide)).2
